import Mathlib

/-!
A verification development for the spark-on-k8s-operator core: shallow
embeddings of the pod-event router, the admission webhook, the metrics
exporter, and the yunikorn gang-scheduling adapter, together with theorems
settling the specified behavioural properties.
-/

set_option linter.unusedVariables false

namespace SparkOperator

/-- Modelled from the spec: the pod label carrying the owning application's
name (§6 "owning-application name" marker; referenced by the source as
`config.SparkAppNameLabel`, whose definition is outside the excerpt). -/
def sparkAppNameLabel : String := "sparkoperator.k8s.io/app-name"

/-- Modelled from the spec: the pod label carrying the per-attempt submission
identifier (`config.SubmissionIDLabel` in the source). -/
def submissionIDLabel : String := "sparkoperator.k8s.io/submission-id"

/-- Modelled from the spec: the "launched-by" marker label (§4.2 filter);
`util.IsLaunchedBySparkOperator` checks it has the value "true". -/
def launchedByLabel : String := "sparkoperator.k8s.io/launched-by-spark-operator"

/-- Modelled from the spec: the driver/executor role marker label. -/
def sparkRoleLabel : String := "spark-role"

/-- Role marker value for driver pods. -/
def driverRoleValue : String := "driver"

/-- Role marker value for executor pods. -/
def executorRoleValue : String := "executor"

/-- A Kubernetes pod, restricted to the fields the embedded code consults:
name, namespace, resource version, and the label map (an association list;
a Go map lookup of an absent key is modelled by `List.lookup` = `none`). -/
structure Pod where
  name : String
  ns : String
  resourceVersion : String
  labels : List (String × String)
deriving Repr, DecidableEq

/-- Application lifecycle states (`v1beta2.ApplicationStateType`).
`newState` models the empty-string "new" state. -/
inductive ApplicationStateType where
  | newState
  | submitted
  | running
  | completed
  | succeeding
  | failed
  | failing
  | failedSubmission
  | pendingRerun
  | invalidating
  | unknownState
deriving Repr, DecidableEq

/-- Executor lifecycle states (`v1beta2.ExecutorState`). `zeroValue` models
the Go zero value "" returned by a map lookup of an absent executor. -/
inductive ExecutorState where
  | pending
  | running
  | completed
  | failed
  | unknownExecutor
  | zeroValue
deriving Repr, DecidableEq

/-- The status fields of a `v1beta2.SparkApplication` that the embedded code
reads. Timestamps are nanoseconds since the epoch; `0` models the zero time
(`metav1.Time.IsZero`). -/
structure SparkApplicationStatus where
  appState : ApplicationStateType
  submissionID : String
  lastSubmissionAttemptTime : Nat
  terminationTime : Nat
  executorState : List (String × ExecutorState)
deriving Repr, DecidableEq

/-- A SparkApplication custom resource, restricted to consulted fields. -/
structure SparkApplication where
  name : String
  ns : String
  labels : List (String × String)
  status : SparkApplicationStatus
deriving Repr, DecidableEq

/-- The cached application index (`crdlisters.SparkApplicationLister`):
namespace → name → application or a lookup error (with its message). -/
def SparkAppLister : Type := String → String → Except String SparkApplication

/-- `getAppName` (referenced from `enqueueSparkAppForUpdate`): reads the
owning application name from the pod's app-name label; the boolean `exists`
of the Go map read is modelled by the `Option`. -/
def getAppName (pod : Pod) : Option String :=
  pod.labels.lookup sparkAppNameLabel

/-- `createMetaNamespaceKey`: the namespace/name work-queue key. -/
def createMetaNamespaceKey (ns name : String) : String :=
  ns ++ "/" ++ name

/-- `sparkPodEventHandler.enqueueSparkAppForUpdate` (spark_pod_eventhandler.go):
resolves the owning application name; if the pod carries a submission-ID
label, consults the cached index and drops the event (returns `none`) on a
lookup error or a submission-ID mismatch; otherwise produces the enqueued
key. -/
def enqueueSparkAppForUpdate (lister : SparkAppLister) (pod : Pod) : Option String :=
  match getAppName pod with
  | none => none
  | some appName =>
    let proceed :=
      match pod.labels.lookup submissionIDLabel with
      | some submissionID =>
        match lister pod.ns appName with
        | .error _ => false
        | .ok app => app.status.submissionID == submissionID
      | none => true
    if proceed then some (createMetaNamespaceKey pod.ns appName) else none

/-- `sparkPodEventHandler.onPodAdded`. -/
def onPodAdded (lister : SparkAppLister) (pod : Pod) : Option String :=
  enqueueSparkAppForUpdate lister pod

/-- `sparkPodEventHandler.onPodUpdated`: drops updates whose resource
version is unchanged, otherwise enqueues for the updated pod. -/
def onPodUpdated (lister : SparkAppLister) (oldPod updatedPod : Pod) : Option String :=
  if updatedPod.resourceVersion == oldPod.resourceVersion then none
  else enqueueSparkAppForUpdate lister updatedPod

/-- The object wrapped inside a `cache.DeletedFinalStateUnknown` tombstone:
either a `*corev1.Pod` (possibly a nil pointer, modelled by `none`) or some
other runtime object (including a nil interface), on which the source's
unchecked type assertion `deletedObj.(*apiv1.Pod)` panics. -/
inductive TombstoneObject where
  | pod (p : Option Pod)
  | nonPod
deriving Repr, DecidableEq

/-- The shapes a pod-deletion notification can take: a live `*corev1.Pod`
(possibly nil), a tombstone, or any other object (which matches neither
case of the source's type switch). -/
inductive DeleteNotification where
  | livePod (p : Option Pod)
  | tombstone (obj : TombstoneObject)
  | otherShape
deriving Repr, DecidableEq

/-- `sparkPodEventHandler.onPodDeleted`: the type switch assigns `deletedPod`
from a live pod or from the tombstone's wrapped object; the unchecked type
assertion on a non-pod tombstone content is modelled as `Except.error`
(a Go panic); a nil `deletedPod` is dropped with no enqueue. -/
def onPodDeleted (lister : SparkAppLister) (obj : DeleteNotification) :
    Except String (Option String) :=
  match obj with
  | .livePod none => .ok none
  | .livePod (some pod) => .ok (enqueueSparkAppForUpdate lister pod)
  | .tombstone (.pod none) => .ok none
  | .tombstone (.pod (some pod)) => .ok (enqueueSparkAppForUpdate lister pod)
  | .tombstone .nonPod => .error "interface conversion: tombstone object is not a pod"
  | .otherShape => .ok none

/-- A pod lifecycle notification delivered to the event router. -/
inductive PodEvent where
  | added (pod : Pod)
  | updated (oldPod updatedPod : Pod)
  | deleted (obj : DeleteNotification)
deriving Repr, DecidableEq

/-- Dispatch of a pod event to the corresponding handler; the result is the
enqueued application key, if any, or an error for a handler panic. -/
def handlePodEvent (lister : SparkAppLister) : PodEvent → Except String (Option String)
  | .added pod => .ok (onPodAdded lister pod)
  | .updated oldPod updatedPod => .ok (onPodUpdated lister oldPod updatedPod)
  | .deleted obj => onPodDeleted lister obj

/-- The pod a given event is about (for deletions, the unwrapped pod). -/
def eventPod : PodEvent → Option Pod
  | .added pod => some pod
  | .updated _ updatedPod => some updatedPod
  | .deleted (.livePod p) => p
  | .deleted (.tombstone (.pod p)) => p
  | .deleted _ => none

/-! ### Metrics exporter (sparkapp_metrics.go) -/

/-- The observable effects `sparkAppMetrics.exportMetrics` can have on the
metric registry. Duration observations carry the observed value in
microseconds. -/
inductive MetricEffect where
  | submitCountInc
  | runningCountInc
  | runningCountDec
  | successCountInc
  | failureCountInc
  | failedSubmissionCountInc
  | successExecutionTimeObserve (micros : Int)
  | failureExecutionTimeObserve (micros : Int)
  | executorRunningInc
  | executorRunningDec
  | executorSuccessInc
  | executorFailureInc
deriving Repr, DecidableEq

/-- A Go map read `status.ExecutorState[executor]`, which yields the zero
value "" for an absent key. -/
def lookupExecutorState (m : List (String × ExecutorState)) (executor : String) :
    ExecutorState :=
  (m.lookup executor).getD .zeroValue

/-- `d := TerminationTime.Sub(LastSubmissionAttemptTime)` followed by
`d / time.Microsecond` (Go integer division truncates toward zero). -/
def executionMicros (status : SparkApplicationStatus) : Int :=
  ((status.terminationTime : Int) - (status.lastSubmissionAttemptTime : Int)).tdiv 1000

/-- The application-state arm of `exportMetrics`: the switch on the new
state runs only when the state changed; Succeeding/Failing observe the
execution duration only when both timestamps are non-zero. Metric lookup
errors (`GetMetricWith`) only affect logging and are not modelled. -/
def appStateEffects (oldStatus newStatus : SparkApplicationStatus) : List MetricEffect :=
  if newStatus.appState = oldStatus.appState then []
  else
    match newStatus.appState with
    | .submitted => [.submitCountInc]
    | .running => [.runningCountInc]
    | .succeeding =>
      (if newStatus.lastSubmissionAttemptTime ≠ 0 ∧ newStatus.terminationTime ≠ 0 then
        [.successExecutionTimeObserve (executionMicros newStatus)]
      else []) ++ [.runningCountDec, .successCountInc]
    | .failing =>
      (if newStatus.lastSubmissionAttemptTime ≠ 0 ∧ newStatus.terminationTime ≠ 0 then
        [.failureExecutionTimeObserve (executionMicros newStatus)]
      else []) ++ [.runningCountDec, .failureCountInc]
    | .failedSubmission => [.failedSubmissionCountInc]
    | _ => []

/-- The body of the executor loop of `exportMetrics` for one entry
`(executor, newExecState)` of the new ExecutorState map: an effect fires
only when the old map records a different state for that executor. -/
def executorEntryEffects (oldState : List (String × ExecutorState))
    (entry : String × ExecutorState) : List MetricEffect :=
  match entry.2 with
  | .running =>
    if lookupExecutorState oldState entry.1 ≠ .running then [.executorRunningInc] else []
  | .completed =>
    if lookupExecutorState oldState entry.1 ≠ .completed then
      [.executorRunningDec, .executorSuccessInc]
    else []
  | .failed =>
    if lookupExecutorState oldState entry.1 ≠ .failed then
      [.executorRunningDec, .executorFailureInc]
    else []
  | _ => []

/-- The executor loop of `exportMetrics`: each entry of the new
ExecutorState map is visited exactly once. -/
def executorMetricEffects (oldState newState : List (String × ExecutorState)) :
    List MetricEffect :=
  newState.flatMap (executorEntryEffects oldState)

/-- `sparkAppMetrics.exportMetrics(oldApp, newApp)` as the list of metric
effects it produces. -/
def exportMetricsEffects (oldApp newApp : SparkApplication) : List MetricEffect :=
  appStateEffects oldApp.status newApp.status ++
    executorMetricEffects oldApp.status.executorState newApp.status.executorState

/-- Whether a metric effect is an execution-duration observation. -/
def isExecutionTimeObservation : MetricEffect → Bool
  | .successExecutionTimeObserve _ => true
  | .failureExecutionTimeObserve _ => true
  | _ => false

/-- Whether an effect list contains an execution-duration observation. -/
def hasExecutionTimeObservation (effects : List MetricEffect) : Bool :=
  effects.any isExecutionTimeObservation

/-! ### Mutating admission webhook (webhook.go) -/

/-- `metav1.GroupVersionResource`, restricted to the compared fields. -/
structure GroupVersionResource where
  group : String
  version : String
  resource : String
deriving Repr, DecidableEq

/-- The `podResource` the webhook accepts (core/v1 pods). -/
def podResource : GroupVersionResource :=
  { group := "", version := "v1", resource := "pods" }

/-- An `admissionv1beta1.AdmissionRequest`, restricted to the consulted
fields; the raw serialized object keeps an abstract type `Raw`. -/
structure AdmissionRequest (Raw : Type) where
  uid : String
  resource : GroupVersionResource
  ns : String
  rawObject : Raw

/-- An `admissionv1beta1.AdmissionReview` as decoded from the request body;
`request` is a nullable pointer in the source. -/
structure AdmissionReview (Raw : Type) where
  request : Option (AdmissionRequest Raw)

/-- An `admissionv1beta1.AdmissionResponse`, restricted to the produced
fields: `allowed`, the `Result.Message` of an error response, the marshaled
patch with its JSONPatch type marker, and the echoed request UID. -/
structure AdmissionResponse where
  allowed : Bool
  resultMessage : Option String
  patch : Option String
  patchTypeJSONPatch : Bool
  uid : String
deriving Repr, DecidableEq

/-- `toAdmissionResponse` (webhook.go): every internal error becomes an
allowed response carrying the error message. -/
def toAdmissionResponse (errMsg : String) : AdmissionResponse :=
  { allowed := true
    resultMessage := some errMsg
    patch := none
    patchTypeJSONPatch := false
    uid := "" }

/-- Modelled from the spec: `util.IsLaunchedBySparkOperator` — the pod
carries the launched-by marker label with value "true". -/
def isLaunchedBySparkOperator (pod : Pod) : Bool :=
  pod.labels.lookup launchedByLabel == some "true"

/-- Modelled from the spec: `util.IsDriverPod` — the role marker label has
the driver value. -/
def isDriverPod (pod : Pod) : Bool :=
  pod.labels.lookup sparkRoleLabel == some driverRoleValue

/-- Modelled from the spec: `util.IsExecutorPod` — the role marker label has
the executor value. -/
def isExecutorPod (pod : Pod) : Bool :=
  pod.labels.lookup sparkRoleLabel == some executorRoleValue

/-- `isSparkPod` (webhook.go). -/
def isSparkPod (pod : Pod) : Bool :=
  isLaunchedBySparkOperator pod && (isDriverPod pod || isExecutorPod pod)

/-- `inSparkJobNamespace` (webhook.go); `""` is `apiv1.NamespaceAll`. -/
def inSparkJobNamespace (podNs sparkJobNamespace : String) : Bool :=
  if sparkJobNamespace == "" then true else podNs == sparkJobNamespace

/-- The external collaborators `mutatePods` calls into: the JSON
unmarshaling of the raw pod, the cached application index, the patch
computation `patchSparkPod` (its operations keep an abstract type), and the
JSON marshaling of the patch operations. -/
structure MutateEnv (Raw PatchOp : Type) where
  unmarshalPod : Raw → Except String Pod
  lister : SparkAppLister
  patchSparkPod : Pod → SparkApplication → List PatchOp
  marshalPatch : List PatchOp → Except String String

/-- `mutatePods` (webhook.go). A non-pod resource yields no response
(`Option.none`); unmarshal, index-lookup and patch-marshal errors yield
`toAdmissionResponse`; a nil `review.Request` makes the source dereference a
nil pointer, modelled as `Except.error`. -/
def passThroughResponse : AdmissionResponse :=
  { allowed := true
    resultMessage := none
    patch := none
    patchTypeJSONPatch := false
    uid := "" }

/-- The `appName := pod.Labels[config.SparkAppNameLabel]` read of
`mutatePods` (a Go map read of an absent key yields ""). -/
def podAppName (pod : Pod) : String :=
  (pod.labels.lookup sparkAppNameLabel).getD ""

def mutatePods {Raw PatchOp : Type} (env : MutateEnv Raw PatchOp)
    (review : AdmissionReview Raw) (sparkJobNs : String) :
    Except String (Option AdmissionResponse) :=
  match review.request with
  | none => .error "nil admission request dereferenced"
  | some req =>
    if req.resource ≠ podResource then .ok none
    else
      match env.unmarshalPod req.rawObject with
      | .error e => .ok (some (toAdmissionResponse e))
      | .ok pod =>
        if (isSparkPod pod && inSparkJobNamespace req.ns sparkJobNs) = false then
          .ok (some passThroughResponse)
        else if podAppName pod = "" then .ok (some passThroughResponse)
        else
          match env.lister req.ns (podAppName pod) with
          | .error e => .ok (some (toAdmissionResponse e))
          | .ok app =>
            if (env.patchSparkPod pod app).length > 0 then
              match env.marshalPatch (env.patchSparkPod pod app) with
              | .error e => .ok (some (toAdmissionResponse e))
              | .ok patchBytes =>
                .ok (some { passThroughResponse with
                  patch := some patchBytes
                  patchTypeJSONPatch := true })
            else .ok (some passThroughResponse)

/-- The body of the inbound HTTP request: a nil `r.Body`, a read failure,
or the read data. -/
inductive RequestBody where
  | nilBody
  | readFailure
  | content (data : String)
deriving Repr, DecidableEq

/-- The bytes `serve` ends up with in `body` (empty for a nil body). -/
def requestBodyData : RequestBody → String
  | .content data => data
  | _ => ""

/-- What `serve` does with an HTTP request: reply with a bare HTTP error
status, crash (a Go panic inside the handler), or write an admission review
whose response is `reviewResponse` (possibly nil). -/
inductive ServeOutcome where
  | httpError (code : Nat)
  | crashed (msg : String)
  | reviewWritten (response : Option AdmissionResponse)
deriving Repr, DecidableEq

/-- `MutateEnv` plus the deserializer used by `serve` to decode the request
body into an admission review. -/
structure ServeEnv (Raw PatchOp : Type) extends MutateEnv Raw PatchOp where
  decodeReview : String → Except String (AdmissionReview Raw)

/-- `WebHook.serve` (webhook.go): read failure → 500; empty body → 400;
wrong Content-Type → 415; a deserializer error is answered with
`toAdmissionResponse`; otherwise the `mutatePods` response is written, with
the request UID echoed when the decoded review carries a request. The final
`json.Marshal` of the response review cannot fail on this struct and is
modelled as infallible. -/
def serve {Raw PatchOp : Type} (env : ServeEnv Raw PatchOp) (body : RequestBody)
    (contentType : String) (sparkJobNs : String) : ServeOutcome :=
  match body with
  | .readFailure => .httpError 500
  | body =>
    if (requestBodyData body).length = 0 then .httpError 400
    else if contentType ≠ "application/json" then .httpError 415
    else
      match env.decodeReview (requestBodyData body) with
      | .error e => .reviewWritten (some (toAdmissionResponse e))
      | .ok review =>
        match mutatePods env.toMutateEnv review sparkJobNs with
        | .error msg => .crashed msg
        | .ok none => .reviewWritten none
        | .ok (some resp) =>
          match review.request with
          | some req => .reviewWritten (some { resp with uid := req.uid })
          | none => .reviewWritten (some resp)

/-- The allowed flag of the response review written by `serve`, if any. -/
def serveAllowed : ServeOutcome → Option Bool
  | .reviewWritten (some resp) => some resp.allowed
  | _ => none

/-- The result message of the response review written by `serve`, if any. -/
def serveMessage : ServeOutcome → Option String
  | .reviewWritten (some resp) => resp.resultMessage
  | _ => none

/-! ### Yunikorn scheduling adapter

The adapter implementation (`internal/scheduler/yunikorn/scheduler.go` and
its resource helpers) is not part of the excerpt — only its test
(`scheduler_test.go`) is. The definitions below are therefore modelled from
the spec (§4.4) and anchored on the in-repo test fixtures, which fix the
arithmetic at every point the spec's prose leaves open. -/

/-- The application language kinds (`v1beta2.SparkApplicationType`);
Java and Scala are the JVM-hosted kinds. -/
inductive SparkApplicationType where
  | java
  | scala
  | python
  | r
deriving Repr, DecidableEq

/-- Modelled from the spec: a role's pod configuration consumed by the
adapter (`v1beta2.SparkPodSpec` plus the driver's `CoreRequest`). Memory
quantities are byte strings such as "512m" or "8g". -/
structure RolePodConfig where
  cores : Option Nat
  coreRequest : Option String
  memory : Option String
  memoryOverhead : Option String
  nodeSelector : List (String × String)
deriving Repr, DecidableEq

/-- `v1beta2.DynamicAllocation`, restricted to the consumed fields. -/
structure DynamicAllocation where
  enabled : Bool
  initialExecutors : Option Nat
  minExecutors : Option Nat
  maxExecutors : Option Nat
deriving Repr, DecidableEq

/-- Modelled from the spec: the slice of the application spec the adapter
consumes. The optional explicit memory-overhead factor is an exact decimal,
embedded as a numerator/denominator pair (the string "0.3" is `(3, 10)`). -/
structure AdapterAppSpec where
  appType : SparkApplicationType
  memoryOverheadFactor : Option (Nat × Nat)
  appNodeSelector : List (String × String)
  driver : RolePodConfig
  executorInstances : Option Nat
  executor : RolePodConfig
  dynamicAllocation : Option DynamicAllocation
deriving Repr, DecidableEq

/-- Modelled from the spec: parse a Spark byte string into whole MiB; the
suffix "m" denotes MiB and "g" denotes GiB (1024 MiB), as exercised by the
test fixtures ("512m", "1g", "2g", "8g", "64g"). -/
def byteStringAsMi (s : String) : Option Nat :=
  let digits := s.data.takeWhile Char.isDigit
  let unit := s.data.dropWhile Char.isDigit
  if digits.isEmpty then none
  else
    let n := digits.foldl (fun acc c => acc * 10 + (c.toNat - 48)) 0
    if unit = ['m'] then some n
    else if unit = ['g'] then some (n * 1024)
    else none

/-- Modelled from the spec: the 384 MiB floor on computed memory overhead. -/
def minMemoryOverheadMi : Nat := 384

/-- Modelled from the spec: the JVM default overhead factor 0.1, inferred
from the 512m ⇒ 896Mi fixture (floor wins at factor 0.1). -/
def jvmOverheadFactor : Nat × Nat := (1, 10)

/-- Modelled from the spec: the non-JVM default overhead factor 0.4,
inferred from the 1g ⇒ 1433Mi fixture. -/
def nonJvmOverheadFactor : Nat × Nat := (4, 10)

/-- Modelled from the spec: an application-level explicit factor overrides
the kind-dependent default wholesale. -/
def overheadFactor (spec : AdapterAppSpec) : Nat × Nat :=
  match spec.memoryOverheadFactor with
  | some factor => factor
  | none =>
    match spec.appType with
    | .java => jvmOverheadFactor
    | .scala => jvmOverheadFactor
    | _ => nonJvmOverheadFactor

/-- Modelled from the spec: per-role memory request in MiB. An explicit
per-role overhead is added verbatim; otherwise the overhead is
max(384 MiB, base × factor). The in-repo test fixtures (8g at factor 0.3 ⇒
10649Mi, 1g at factor 0.4 ⇒ 1433Mi) force the factor product to be
truncated to whole MiB, which `Nat` division performs. -/
def memoryRequestMi (role : RolePodConfig) (spec : AdapterAppSpec) : Option Nat :=
  match role.memory with
  | none => none
  | some mem =>
    match byteStringAsMi mem with
    | none => none
    | some base =>
      match role.memoryOverhead with
      | some overhead => (byteStringAsMi overhead).map (fun o => base + o)
      | none =>
        let factor := overheadFactor spec
        some (base + max minMemoryOverheadMi (base * factor.1 / factor.2))

/-- Modelled from the spec: per-role cpu quantity — an explicit core-request
string is passed through verbatim, else the core count as a bare integer
string (1 when no core count is declared, matching the single-core default
of the driver group). -/
def cpuRequest (cores : Option Nat) (coreRequest : Option String) : String :=
  match coreRequest with
  | some request => request
  | none => toString (cores.getD 1)

/-- Modelled from the spec: the per-role minimum-resource map of the task
group, as cpu and memory quantity strings. -/
def minResource (role : RolePodConfig) (spec : AdapterAppSpec) :
    List (String × String) :=
  let cpu := [("cpu", cpuRequest role.cores role.coreRequest)]
  match memoryRequestMi role spec with
  | some mi => cpu ++ [("memory", toString mi ++ "Mi")]
  | none => cpu

/-- The reference definition exactly as claim C3 words it: identical to
`minResource` except that the factor product is rounded *up* to whole MiB. -/
def minResourceRoundedUp (role : RolePodConfig) (spec : AdapterAppSpec) :
    List (String × String) :=
  let cpu := [("cpu", cpuRequest role.cores role.coreRequest)]
  let memory :=
    match role.memory with
    | none => none
    | some mem =>
      match byteStringAsMi mem with
      | none => none
      | some base =>
        match role.memoryOverhead with
        | some overhead => (byteStringAsMi overhead).map (fun o => base + o)
        | none =>
          let factor := overheadFactor spec
          some (base + max minMemoryOverheadMi ((base * factor.1 + factor.2 - 1) / factor.2))
  match memory with
  | some mi => cpu ++ [("memory", toString mi ++ "Mi")]
  | none => cpu

/-- Modelled from the spec: the executor task group's minimum member count —
the maximum of the declared instance count and the dynamic-allocation
minimum and initial executor counts, each zero when unset. -/
def executorMinMember (spec : AdapterAppSpec) : Nat :=
  let instances := spec.executorInstances.getD 0
  match spec.dynamicAllocation with
  | none => instances
  | some dyn => max instances (max (dyn.minExecutors.getD 0) (dyn.initialExecutors.getD 0))

/-- Modelled from the spec: merge of application-level and role-level node
selectors — the union of the two maps, the role level winning on every key
collision, and `none` (Go `nil`) rather than an empty map when the merge
has no keys. -/
def mergeNodeSelector (appNodeSelector podNodeSelector : List (String × String)) :
    Option (List (String × String)) :=
  let merged :=
    appNodeSelector.filter (fun kv => (podNodeSelector.lookup kv.1).isNone) ++
      podNodeSelector
  if merged.isEmpty then none else some merged

/-- Lookup through the nullable result of `mergeNodeSelector`. -/
def mergedLookup (merged : Option (List (String × String))) (key : String) :
    Option String :=
  match merged with
  | none => none
  | some m => m.lookup key

/-! ### Concrete fixtures (from the in-repo tests and for witnesses) -/

/-- A concrete application fixture: current submission ID "sid-1". -/
def demoApp : SparkApplication :=
  { name := "spark-pi"
    ns := "default"
    labels := []
    status :=
      { appState := .running
        submissionID := "sid-1"
        lastSubmissionAttemptTime := 0
        terminationTime := 0
        executorState := [] } }

/-- A lister whose index always resolves to `demoApp`. -/
def demoLister : SparkAppLister := fun _ _ => .ok demoApp

/-- A pod fixture labelled with the stale submission ID "sid-0". -/
def demoStalePod : Pod :=
  { name := "spark-pi-exec-1"
    ns := "default"
    resourceVersion := "7"
    labels := [(sparkAppNameLabel, "spark-pi"), (submissionIDLabel, "sid-0")] }

/-- A lister whose index lookup always fails. -/
def demoErrLister : SparkAppLister := fun _ _ => .error "sparkapplication not found"

/-- A concrete executor-state map fixture. -/
def demoExecutorMap : List (String × ExecutorState) :=
  [("exec-1", .running), ("exec-2", .completed), ("exec-3", .failed)]

/-- A concrete Running status fixture. -/
def demoRunningStatus : SparkApplicationStatus :=
  { appState := .running
    submissionID := "sid-1"
    lastSubmissionAttemptTime := 1000
    terminationTime := 0
    executorState := [] }

/-- A concrete Succeeding status fixture with both timestamps set. -/
def demoSucceedingStatus : SparkApplicationStatus :=
  { appState := .succeeding
    submissionID := "sid-1"
    lastSubmissionAttemptTime := 1000
    terminationTime := 5000000
    executorState := [] }

/-- A concrete operator-launched driver pod fixture. -/
def demoPod : Pod :=
  { name := "spark-pi-driver"
    ns := "default"
    resourceVersion := "1"
    labels := [(launchedByLabel, "true"), (sparkRoleLabel, "driver"),
      (sparkAppNameLabel, "spark-pi")] }

/-- A webhook environment whose review deserializer always fails. -/
def demoDecodeErrEnv : ServeEnv Unit Unit :=
  { unmarshalPod := fun _ => .ok demoPod
    lister := demoLister
    patchSparkPod := fun _ _ => []
    marshalPatch := fun _ => .ok "[]"
    decodeReview := fun _ => .error "invalid admission review" }

/-- A webhook environment that decodes a review carrying no request. -/
def demoAllowEnv : ServeEnv Unit Unit :=
  { unmarshalPod := fun _ => .ok demoPod
    lister := demoLister
    patchSparkPod := fun _ _ => []
    marshalPatch := fun _ => .ok "[]"
    decodeReview := fun _ => .ok { request := none } }

/-- The driver/executor role config of the "spark-pi-yunikorn" test case of
TestSchedule (512m memory, 1 core, JVM application). -/
def demoJvmConfig : RolePodConfig :=
  { cores := some 1
    coreRequest := none
    memory := some "512m"
    memoryOverhead := none
    nodeSelector := [] }

/-- The application spec of the "spark-pi-yunikorn" test case. -/
def demoJvmSpec : AdapterAppSpec :=
  { appType := .scala
    memoryOverheadFactor := none
    appNodeSelector := []
    driver := demoJvmConfig
    executorInstances := some 2
    executor := demoJvmConfig
    dynamicAllocation := none }

/-- The driver role config of the "Dynamic allocation and memory overhead"
test case of TestSchedule (8g memory, 4 cores, core request "2000m"). -/
def demoDriverConfig : RolePodConfig :=
  { cores := some 4
    coreRequest := some "2000m"
    memory := some "8g"
    memoryOverhead := none
    nodeSelector := [] }

/-- The executor role config of the "Dynamic allocation and memory overhead"
test case (64g memory plus an explicit 2g overhead). -/
def demoExecutorConfig : RolePodConfig :=
  { cores := some 8
    coreRequest := none
    memory := some "64g"
    memoryOverhead := some "2g"
    nodeSelector := [] }

/-- The application spec of the "Dynamic allocation and memory overhead"
test case: explicit factor 0.3, instances 4, dynamic allocation min 2 /
initial 8. -/
def demoDynamicSpec : AdapterAppSpec :=
  { appType := .python
    memoryOverheadFactor := some (3, 10)
    appNodeSelector := []
    driver := demoDriverConfig
    executorInstances := some 4
    executor := demoExecutorConfig
    dynamicAllocation := some
      { enabled := true
        initialExecutors := some 8
        minExecutors := some 2
        maxExecutors := none } }

/-- The role config of the "Node selectors, tolerations, affinity and
labels" test case (1g memory, non-JVM default factor). -/
def demoNonJvmConfig : RolePodConfig :=
  { cores := some 1
    coreRequest := none
    memory := some "1g"
    memoryOverhead := none
    nodeSelector := [("key", "newvalue"), ("key2", "value2")] }

/-- The application spec of the "Node selectors, tolerations, affinity and
labels" test case. -/
def demoNonJvmSpec : AdapterAppSpec :=
  { appType := .python
    memoryOverheadFactor := none
    appNodeSelector := [("key", "value")]
    driver := demoNonJvmConfig
    executorInstances := some 1
    executor := demoNonJvmConfig
    dynamicAllocation := none }

/-- The reference definition of claim C3 with its rounding direction
amended: cpu is the explicit core-request string when set, otherwise the
core count as a bare integer string; memory is base memory plus the
explicit per-role overhead when set, otherwise base plus
max(384 MiB, base × overhead-factor truncated down to whole MiB), emitted
as a `<N>Mi` string. -/
def minResourceReference (role : RolePodConfig) (spec : AdapterAppSpec) :
    List (String × String) :=
  [("cpu",
    match role.coreRequest with
    | some request => request
    | none => toString (role.cores.getD 1))] ++
  (match role.memory.bind byteStringAsMi with
   | none => []
   | some base =>
     match role.memoryOverhead with
     | some overhead =>
       match byteStringAsMi overhead with
       | none => []
       | some o => [("memory", toString (base + o) ++ "Mi")]
     | none =>
       [("memory", toString (base + max minMemoryOverheadMi
         (base * (overheadFactor spec).1 / (overheadFactor spec).2)) ++ "Mi")])


/-! ### Theorems -/

/-- Helper: in an association list with no duplicate keys, `List.lookup`
finds exactly the member entry. -/
theorem lookup_of_mem_keys_nodup {α β : Type} [BEq α] [LawfulBEq α]
    {m : List (α × β)} {k : α} {v : β}
    (hnd : (m.map Prod.fst).Nodup) (hmem : (k, v) ∈ m) :
    m.lookup k = some v := by
  induction m with
  | nil => simp at hmem
  | cons kv t ih =>
    obtain ⟨k0, v0⟩ := kv
    simp only [List.map_cons, List.nodup_cons] at hnd
    rcases List.mem_cons.mp hmem with heq | htail
    · cases heq
      simp [List.lookup]
    · have hne : k ≠ k0 := by
        intro h
        subst h
        exact hnd.1 (List.mem_map.mpr ⟨(k, v), htail, rfl⟩)
      rw [List.lookup, show (k == k0) = false from beq_eq_false_iff_ne.mpr hne]
      exact ih hnd.2 htail

/-- Helper: an executor entry whose state equals the old recorded state
produces no metric effect. -/
theorem entry_effects_nil_of_unchanged (oldState : List (String × ExecutorState))
    (executor : String) (s : ExecutorState)
    (h : lookupExecutorState oldState executor = s) :
    executorEntryEffects oldState (executor, s) = [] := by
  cases s <;> simp [executorEntryEffects, h]

/-- Helper: every admission response `mutatePods` produces has
`allowed = true`. -/
theorem mutate_pods_response_allowed {Raw PatchOp : Type} (env : MutateEnv Raw PatchOp)
    (review : AdmissionReview Raw) (sparkJobNs : String) (resp : AdmissionResponse)
    (h : mutatePods env review sparkJobNs = .ok (some resp)) :
    resp.allowed = true := by
  unfold mutatePods at h
  revert h
  repeat' split
  all_goals intro h
  all_goals
    first
    | exact Except.noConfusion h
    | (injection h with h
       first
       | exact Option.noConfusion h
       | (injection h with h
          subst h
          rfl))

/-- Helper: `List.lookup` over an append tries the left list first. -/
theorem lookup_append_eq {α β : Type} [BEq α] (l1 l2 : List (α × β)) (k : α) :
    (l1 ++ l2).lookup k =
      match l1.lookup k with
      | some v => some v
      | none => l2.lookup k := by
  induction l1 with
  | nil => simp [List.lookup]
  | cons kv t ih =>
    obtain ⟨k0, v0⟩ := kv
    cases hk : k == k0 <;> simp [List.lookup, hk, ih]

/-- Helper: looking up a key among the entries whose key is absent from `m`
yields the original lookup when `m` misses the key and nothing when `m`
has it. -/
theorem lookup_filter_absent {α β : Type} [BEq α] [LawfulBEq α]
    (l m : List (α × β)) (k : α) :
    (l.filter fun kv => (m.lookup kv.1).isNone).lookup k =
      match m.lookup k with
      | some _ => none
      | none => l.lookup k := by
  induction l with
  | nil => cases hm : m.lookup k <;> simp [List.lookup]
  | cons kv t ih =>
    obtain ⟨k0, v0⟩ := kv
    by_cases hk : k = k0
    · subst hk
      cases hm : m.lookup k with
      | none => simp [List.filter_cons, hm, List.lookup, ih]
      | some w => simp [List.filter_cons, hm, List.lookup, ih]
    · have hbk : (k == k0) = false := beq_eq_false_iff_ne.mpr hk
      cases hm0 : (m.lookup k0).isNone with
      | true => simp [List.filter_cons, hm0, List.lookup, hbk, ih]
      | false => simp [List.filter_cons, hm0, List.lookup, hbk, ih]

/-- Helper: the merged node-selector list is empty only when both input
selectors are empty. -/
theorem merge_parts_of_empty (appNodeSelector podNodeSelector : List (String × String))
    (h : appNodeSelector.filter
        (fun kv => (podNodeSelector.lookup kv.1).isNone) ++ podNodeSelector = []) :
    appNodeSelector = [] ∧ podNodeSelector = [] := by
  rcases List.append_eq_nil.mp h with ⟨hf, hp⟩
  subst hp
  simp [List.lookup] at hf
  exact ⟨hf, rfl⟩

/-- C1: the webhook is fail-open — no admission response it writes ever has
`Allowed = false`, and every internal error (review decoding, pod
unmarshaling, application lookup, patch marshaling) produces the allowed
`toAdmissionResponse` carrying the error message. -/
theorem webhook_fail_open {Raw PatchOp : Type} (env : ServeEnv Raw PatchOp)
    (body : RequestBody) (contentType sparkJobNs : String) :
    serveAllowed (serve env body contentType sparkJobNs) ≠ some false ∧
    (∀ e, body ≠ .readFailure → (requestBodyData body).length ≠ 0 →
      contentType = "application/json" →
      env.decodeReview (requestBodyData body) = .error e →
      serve env body contentType sparkJobNs =
        .reviewWritten (some (toAdmissionResponse e))) ∧
    (∀ review req e sparkNs, review.request = some req → req.resource = podResource →
      env.unmarshalPod req.rawObject = .error e →
      mutatePods env.toMutateEnv review sparkNs = .ok (some (toAdmissionResponse e))) ∧
    (∀ review req pod e sparkNs, review.request = some req →
      req.resource = podResource →
      env.unmarshalPod req.rawObject = .ok pod →
      (isSparkPod pod && inSparkJobNamespace req.ns sparkNs) = true →
      podAppName pod ≠ "" →
      env.lister req.ns (podAppName pod) = .error e →
      mutatePods env.toMutateEnv review sparkNs = .ok (some (toAdmissionResponse e))) ∧
    (∀ review req pod app e sparkNs, review.request = some req →
      req.resource = podResource →
      env.unmarshalPod req.rawObject = .ok pod →
      (isSparkPod pod && inSparkJobNamespace req.ns sparkNs) = true →
      podAppName pod ≠ "" →
      env.lister req.ns (podAppName pod) = .ok app →
      (env.patchSparkPod pod app).length > 0 →
      env.marshalPatch (env.patchSparkPod pod app) = .error e →
      mutatePods env.toMutateEnv review sparkNs = .ok (some (toAdmissionResponse e))) ∧
    (∀ e, (toAdmissionResponse e).allowed = true ∧
      (toAdmissionResponse e).resultMessage = some e) := by
  refine ⟨?_, ?_, ?_, ?_, ?_, fun e => ⟨rfl, rfl⟩⟩
  · intro hfalse
    cases body with
    | readFailure => simp [serve, serveAllowed] at hfalse
    | nilBody => simp [serve, requestBodyData, serveAllowed] at hfalse
    | content data =>
      by_cases hl : data.length = 0
      · simp [serve, requestBodyData, hl, serveAllowed] at hfalse
      · by_cases hct : contentType = "application/json"
        · rcases hdec : env.decodeReview data with e | review
          · simp [serve, requestBodyData, hl, hct, hdec, serveAllowed,
              toAdmissionResponse] at hfalse
          · rcases hmut : mutatePods env.toMutateEnv review sparkJobNs with msg | r
            · simp [serve, requestBodyData, hl, hct, hdec, hmut, serveAllowed] at hfalse
            · cases r with
              | none =>
                simp [serve, requestBodyData, hl, hct, hdec, hmut, serveAllowed] at hfalse
              | some resp =>
                have hallowed := mutate_pods_response_allowed env.toMutateEnv review
                  sparkJobNs resp hmut
                cases hreq : review.request with
                | none =>
                  simp [serve, requestBodyData, hl, hct, hdec, hmut, hreq,
                    serveAllowed, hallowed] at hfalse
                | some req =>
                  simp [serve, requestBodyData, hl, hct, hdec, hmut, hreq,
                    serveAllowed, hallowed] at hfalse
        · simp [serve, requestBodyData, hl, hct, serveAllowed] at hfalse
  · intro e hbody hlen hct hdec
    cases body with
    | readFailure => exact absurd rfl hbody
    | nilBody => simp [requestBodyData] at hlen
    | content data =>
      simp only [requestBodyData] at hlen hdec
      simp [serve, requestBodyData, hlen, hct, hdec]
  · intro review req e sparkNs hreq hres hum
    unfold mutatePods
    rw [hreq]
    simp [hres, hum]
  · intro review req pod e sparkNs hreq hres hum hspark hname herr
    unfold mutatePods
    rw [hreq]
    simp [hres, hum, hspark, hname, herr]
  · intro review req pod app e sparkNs hreq hres hum hspark hname hok hops hmarshal
    unfold mutatePods
    rw [hreq]
    simp [hres, hum, hspark, hname, hok, hops, hmarshal, Nat.pos_iff_ne_zero]

/-- Witness for C1: a concrete failing deserializer still yields an allowed
response with the error message attached. -/
theorem webhook_fail_open_witness :
    serve demoDecodeErrEnv (.content "x") "application/json" "" =
      .reviewWritten (some (toAdmissionResponse "invalid admission review")) :=
  (webhook_fail_open demoDecodeErrEnv (.content "x") "application/json" "").2.1
    "invalid admission review" (by decide) (by decide) rfl rfl

/-- C2: for every pod event (add, update, or delete) whose pod carries a
submission-ID label that does not match the current status submission ID of
the owning application found in the cached index, the event router performs
no enqueue of the application key. -/
theorem pod_event_stale_submission_no_enqueue
    (lister : SparkAppLister) (ev : PodEvent) (pod : Pod)
    (appName submissionID : String) (app : SparkApplication)
    (hpod : eventPod ev = some pod)
    (hname : pod.labels.lookup sparkAppNameLabel = some appName)
    (hsid : pod.labels.lookup submissionIDLabel = some submissionID)
    (happ : lister pod.ns appName = .ok app)
    (hmismatch : app.status.submissionID ≠ submissionID) :
    handlePodEvent lister ev = .ok none := by
  have henq : enqueueSparkAppForUpdate lister pod = none := by
    simp only [enqueueSparkAppForUpdate, getAppName, hname, hsid, happ]
    simp [hmismatch]
  cases ev with
  | added p =>
    simp only [eventPod, Option.some.injEq] at hpod
    subst hpod
    simp [handlePodEvent, onPodAdded, henq]
  | updated o n =>
    simp only [eventPod, Option.some.injEq] at hpod
    subst hpod
    simp only [handlePodEvent, onPodUpdated, henq]
    split <;> rfl
  | deleted obj =>
    cases obj with
    | livePod p =>
      cases p with
      | none => simp [eventPod] at hpod
      | some q =>
        simp only [eventPod, Option.some.injEq] at hpod
        subst hpod
        simp [handlePodEvent, onPodDeleted, henq]
    | tombstone t =>
      cases t with
      | pod p =>
        cases p with
        | none => simp [eventPod] at hpod
        | some q =>
          simp only [eventPod, Option.some.injEq] at hpod
          subst hpod
          simp [handlePodEvent, onPodDeleted, henq]
      | nonPod => simp [eventPod] at hpod
    | otherShape => simp [eventPod] at hpod

/-- Witness for C2: a concrete stale-submission pod event is dropped. -/
theorem pod_event_stale_submission_no_enqueue_witness :
    handlePodEvent demoLister (.added demoStalePod) = .ok none :=
  pod_event_stale_submission_no_enqueue demoLister _ demoStalePod "spark-pi" "sid-0"
    demoApp rfl (by decide) (by decide) rfl (by decide)

/-- Counterexample to C3 as stated: with base memory 8g and explicit
overhead factor 0.3, the round-up reading of the claim produces
"10650Mi", while the adapter (as pinned by the TestSchedule fixture the
claim itself cites) produces "10649Mi" — the factor product is truncated,
not rounded up. -/
theorem min_resource_round_up_refuted :
    minResourceRoundedUp demoDriverConfig demoDynamicSpec =
      [("cpu", "2000m"), ("memory", "10650Mi")] ∧
    minResource demoDriverConfig demoDynamicSpec =
      [("cpu", "2000m"), ("memory", "10649Mi")] ∧
    minResourceRoundedUp demoDriverConfig demoDynamicSpec ≠
      minResource demoDriverConfig demoDynamicSpec :=
  ⟨by decide, by decide, by decide⟩

/-- C3 (amended): the per-role minimum-resource map equals the reference
definition with the factor product truncated down to whole MiB, and
reproduces all TestSchedule fixtures: 512m at the JVM default factor ⇒
896Mi, 8g at factor 0.3 with core request "2000m" ⇒ cpu "2000m" /
10649Mi, 64g plus explicit 2g overhead ⇒ 67584Mi, and 1g at the non-JVM
default factor ⇒ 1433Mi. -/
theorem min_resource_matches_reference (role : RolePodConfig) (spec : AdapterAppSpec) :
    (minResource role spec = minResourceReference role spec) ∧
    minResource demoJvmConfig demoJvmSpec = [("cpu", "1"), ("memory", "896Mi")] ∧
    minResource demoDriverConfig demoDynamicSpec =
      [("cpu", "2000m"), ("memory", "10649Mi")] ∧
    minResource demoExecutorConfig demoDynamicSpec =
      [("cpu", "8"), ("memory", "67584Mi")] ∧
    minResource demoNonJvmConfig demoNonJvmSpec =
      [("cpu", "1"), ("memory", "1433Mi")] := by
  refine ⟨?_, by decide, by decide, by decide, by decide⟩
  unfold minResource minResourceReference memoryRequestMi cpuRequest
  cases hm : role.memory with
  | none => simp [Option.bind]
  | some mem =>
    cases hb : byteStringAsMi mem with
    | none => simp [Option.bind, hb]
    | some base =>
      cases ho : role.memoryOverhead with
      | none => simp [Option.bind, hb, ho]
      | some overhead =>
        cases hbo : byteStringAsMi overhead with
        | none => simp [Option.bind, hb, ho, hbo]
        | some o => simp [Option.bind, hb, ho, hbo]

/-- C4: the executor task group's minimum member count is the maximum of
the declared instance count and the dynamic-allocation minimum and initial
executor counts, each treated as zero when unset; instances=4, min=2,
initial=8 resolves to 8, and instances=2 without dynamic allocation to 2. -/
theorem executor_min_member_is_max (spec : AdapterAppSpec) :
    (executorMinMember spec =
      max (spec.executorInstances.getD 0)
        (max ((spec.dynamicAllocation.bind (fun dyn => dyn.minExecutors)).getD 0)
          ((spec.dynamicAllocation.bind (fun dyn => dyn.initialExecutors)).getD 0))) ∧
    executorMinMember demoDynamicSpec = 8 ∧
    executorMinMember demoJvmSpec = 2 := by
  refine ⟨?_, by decide, by decide⟩
  unfold executorMinMember
  cases spec.dynamicAllocation with
  | none => simp
  | some dyn => simp [Option.bind]

/-- C5: executor-state-driven metric effects fire exactly once per distinct
observed (executor, state) transition — the loop visits each entry of the
key-distinct new map once and an entry contributes effects only when its
state differs from the old recorded state; re-delivery of an unchanged
(executor, state) pair, and in particular of a whole unchanged map, is a
no-op. -/
theorem executor_metrics_once_per_transition
    (oldState newState : List (String × ExecutorState))
    (hnd : (newState.map Prod.fst).Nodup) :
    executorMetricEffects oldState newState =
      (newState.filter fun entry =>
        lookupExecutorState oldState entry.1 != entry.2).flatMap
          (executorEntryEffects oldState) ∧
    (∀ executor s, lookupExecutorState oldState executor = s →
      executorEntryEffects oldState (executor, s) = []) ∧
    executorMetricEffects newState newState = [] := by
  refine ⟨?_, fun e s h => entry_effects_nil_of_unchanged oldState e s h, ?_⟩
  · have hfilter : ∀ l : List (String × ExecutorState),
        l.flatMap (executorEntryEffects oldState) =
          (l.filter fun entry =>
            lookupExecutorState oldState entry.1 != entry.2).flatMap
              (executorEntryEffects oldState) := by
      intro l
      induction l with
      | nil => rfl
      | cons kv t ih =>
        obtain ⟨e0, s0⟩ := kv
        by_cases hc : lookupExecutorState oldState e0 = s0
        · simp [List.filter_cons, hc, entry_effects_nil_of_unchanged oldState e0 s0 hc, ih]
        · simp [List.filter_cons, hc, ih]
    exact hfilter newState
  · unfold executorMetricEffects
    rw [List.flatMap_eq_nil_iff]
    intro entry hmem
    obtain ⟨e0, s0⟩ := entry
    refine entry_effects_nil_of_unchanged newState e0 s0 ?_
    unfold lookupExecutorState
    rw [lookup_of_mem_keys_nodup hnd hmem]
    rfl

/-- Witness for C5: re-delivering a concrete executor-state map against
itself produces no metric effect. -/
theorem executor_metrics_once_per_transition_witness :
    executorMetricEffects demoExecutorMap demoExecutorMap = [] :=
  (executor_metrics_once_per_transition demoExecutorMap demoExecutorMap (by decide)).2.2

/-- C6: the node-selector merge is the union of the application-level and
role-level selectors with the role level winning on every key collision,
and it is the absent map (not an empty map) exactly when both inputs are
empty; all five TestMergeNodeSelector fixtures are reproduced. -/
theorem merge_node_selector_spec (appNodeSelector podNodeSelector : List (String × String)) :
    (∀ key, mergedLookup (mergeNodeSelector appNodeSelector podNodeSelector) key =
      (match podNodeSelector.lookup key with
       | some v => some v
       | none => appNodeSelector.lookup key)) ∧
    (mergeNodeSelector appNodeSelector podNodeSelector = none ↔
      appNodeSelector = [] ∧ podNodeSelector = []) ∧
    mergeNodeSelector [] [] = (none : Option (List (String × String))) ∧
    mergeNodeSelector [("key1", "value1")] [] = some [("key1", "value1")] ∧
    mergeNodeSelector [] [("key1", "value1")] = some [("key1", "value1")] ∧
    mergeNodeSelector [("key1", "value1")] [("key2", "value2")] =
      some [("key1", "value1"), ("key2", "value2")] ∧
    mergeNodeSelector [("key1", "value1")] [("key1", "value2"), ("key2", "value2")] =
      some [("key1", "value2"), ("key2", "value2")] := by
  refine ⟨?_, ?_, by decide, by decide, by decide, by decide, by decide⟩
  · intro key
    unfold mergeNodeSelector mergedLookup
    cases hmerged : (appNodeSelector.filter
        (fun kv => (podNodeSelector.lookup kv.1).isNone) ++ podNodeSelector).isEmpty with
    | true =>
      rcases merge_parts_of_empty appNodeSelector podNodeSelector
        (List.isEmpty_iff.mp hmerged) with ⟨ha, hp⟩
      subst ha
      subst hp
      simp [List.lookup]
    | false =>
      simp only [hmerged, Bool.false_eq_true, if_false]
      rw [lookup_append_eq, lookup_filter_absent]
      cases hm : podNodeSelector.lookup key <;> cases appNodeSelector.lookup key <;> simp
  · constructor
    · intro h
      unfold mergeNodeSelector at h
      cases hmerged : (appNodeSelector.filter
          (fun kv => (podNodeSelector.lookup kv.1).isNone) ++ podNodeSelector).isEmpty with
      | true =>
        exact merge_parts_of_empty appNodeSelector podNodeSelector
          (List.isEmpty_iff.mp hmerged)
      | false =>
        simp only [hmerged] at h
        simp at h
    · rintro ⟨ha, hp⟩
      subst ha
      subst hp
      rfl

/-- C7: an empty request body yields HTTP 400 with no admission review
performed; a non-empty body with a Content-Type other than application/json
yields HTTP 415; a well-formed admission request for a pod not recognized
as operator-launched yields an allowed response with no patch. -/
theorem serve_http_contract {Raw PatchOp : Type} (env : ServeEnv Raw PatchOp)
    (sparkJobNs : String) :
    (∀ body contentType, body ≠ .readFailure → requestBodyData body = "" →
      serve env body contentType sparkJobNs = .httpError 400) ∧
    (∀ data contentType, data.length ≠ 0 → contentType ≠ "application/json" →
      serve env (.content data) contentType sparkJobNs = .httpError 415) ∧
    (∀ data review req pod, data.length ≠ 0 →
      env.decodeReview data = .ok review →
      review.request = some req →
      req.resource = podResource →
      env.unmarshalPod req.rawObject = .ok pod →
      isSparkPod pod = false →
      serve env (.content data) "application/json" sparkJobNs =
        .reviewWritten (some { passThroughResponse with uid := req.uid })) := by
  refine ⟨?_, ?_, ?_⟩
  · intro body contentType hbody hdata
    cases body with
    | readFailure => exact absurd rfl hbody
    | nilBody => simp [serve, requestBodyData]
    | content data =>
      simp only [requestBodyData] at hdata
      subst hdata
      simp [serve, requestBodyData]
  · intro data contentType hlen hct
    simp [serve, requestBodyData, hlen, hct]
  · intro data review req pod hlen hdec hreq hres hum hnotspark
    simp [serve, requestBodyData, hlen, hdec, mutatePods, hreq, hres, hum, hnotspark]

/-- Witness for C7: a concrete empty-body request is answered with 400. -/
theorem serve_http_contract_witness :
    serve demoAllowEnv .nilBody "text/plain" "" = .httpError 400 :=
  (serve_http_contract demoAllowEnv "").1 .nilBody "text/plain" (by decide) rfl

/-- C8 (amended): the deletion handler unwraps the tombstone shape before
resolution and drops the event (no enqueue, no failure) for a nil live pod,
an unrecognized shape, or a tombstone wrapping a nil pod; a tombstone
wrapping a pod is resolved like a live pod; a tombstone wrapping a non-pod
object faults with a type-assertion panic. -/
theorem pod_deletion_tombstone_handling (lister : SparkAppLister) (pod : Pod) :
    onPodDeleted lister (.livePod none) = .ok none ∧
    onPodDeleted lister .otherShape = .ok none ∧
    onPodDeleted lister (.tombstone (.pod none)) = .ok none ∧
    onPodDeleted lister (.livePod (some pod)) =
      .ok (enqueueSparkAppForUpdate lister pod) ∧
    onPodDeleted lister (.tombstone (.pod (some pod))) =
      .ok (enqueueSparkAppForUpdate lister pod) ∧
    onPodDeleted lister (.tombstone .nonPod) =
      .error "interface conversion: tombstone object is not a pod" :=
  ⟨rfl, rfl, rfl, rfl, rfl, rfl⟩

/-- Counterexample to C8 as stated: a deletion notification whose tombstone
wraps a non-pod object makes the handler fail with a type-assertion panic
instead of dropping the event, so the handler is not total over arbitrary
tombstone content. -/
theorem tombstone_non_pod_content_crashes :
    onPodDeleted demoLister (.tombstone .nonPod) =
      .error "interface conversion: tombstone object is not a pod" := rfl

/-- C9: on every status transition into Succeeding or Failing, an
execution-duration observation is emitted if and only if both
LastSubmissionAttemptTime and TerminationTime are non-zero. -/
theorem execution_duration_iff_timestamps
    (oldStatus newStatus : SparkApplicationStatus)
    (hchanged : newStatus.appState ≠ oldStatus.appState)
    (hterminal : newStatus.appState = .succeeding ∨ newStatus.appState = .failing) :
    hasExecutionTimeObservation (appStateEffects oldStatus newStatus) =
      (decide (newStatus.lastSubmissionAttemptTime ≠ 0) &&
        decide (newStatus.terminationTime ≠ 0)) := by
  rcases hterminal with h | h <;>
    (rw [appStateEffects, if_neg hchanged, h]
     by_cases h1 : newStatus.lastSubmissionAttemptTime ≠ 0 ∧ newStatus.terminationTime ≠ 0
     · simp [h1, h1.1, h1.2, hasExecutionTimeObservation, isExecutionTimeObservation]
     · rw [if_neg h1]
       rcases Decidable.not_and_iff_or_not.mp h1 with h2 | h2 <;>
         simp [Decidable.not_not.mp h2, hasExecutionTimeObservation,
           isExecutionTimeObservation])

/-- Witness for C9: a concrete Running → Succeeding transition with both
timestamps set emits the duration observation. -/
theorem execution_duration_iff_timestamps_witness :
    hasExecutionTimeObservation (appStateEffects demoRunningStatus demoSucceedingStatus) =
      (decide (demoSucceedingStatus.lastSubmissionAttemptTime ≠ 0) &&
        decide (demoSucceedingStatus.terminationTime ≠ 0)) :=
  execution_duration_iff_timestamps demoRunningStatus demoSucceedingStatus
    (by decide) (Or.inl rfl)

/-- C10: for every pod event whose pod carries an application-name label and
a submission-ID label, a failing index lookup makes the router silently
drop the event without enqueueing — identically to a submission-ID
mismatch. -/
theorem lookup_error_drops_pod_event
    (lister listerOk : SparkAppLister) (pod : Pod)
    (appName submissionID errMsg : String) (app : SparkApplication)
    (hname : pod.labels.lookup sparkAppNameLabel = some appName)
    (hsid : pod.labels.lookup submissionIDLabel = some submissionID)
    (herr : lister pod.ns appName = .error errMsg)
    (hok : listerOk pod.ns appName = .ok app)
    (hmismatch : app.status.submissionID ≠ submissionID) :
    enqueueSparkAppForUpdate lister pod = none ∧
      enqueueSparkAppForUpdate lister pod = enqueueSparkAppForUpdate listerOk pod := by
  have h1 : enqueueSparkAppForUpdate lister pod = none := by
    simp only [enqueueSparkAppForUpdate, getAppName, hname, hsid, herr]
    simp
  have h2 : enqueueSparkAppForUpdate listerOk pod = none := by
    simp only [enqueueSparkAppForUpdate, getAppName, hname, hsid, hok]
    simp [hmismatch]
  exact ⟨h1, h1.trans h2.symm⟩

/-- Witness for C10: a concrete failing lookup drops the event, with the
same result as a concrete mismatching lookup. -/
theorem lookup_error_drops_pod_event_witness :
    enqueueSparkAppForUpdate demoErrLister demoStalePod = none ∧
      enqueueSparkAppForUpdate demoErrLister demoStalePod =
        enqueueSparkAppForUpdate demoLister demoStalePod :=
  lookup_error_drops_pod_event demoErrLister demoLister demoStalePod "spark-pi" "sid-0"
    "sparkapplication not found" demoApp (by decide) (by decide) rfl rfl (by decide)

end SparkOperator
